import Mathlib

/-!
# Verification of the defmt-embassy-usbserial buffer controller

Shallow embedding of the double-buffered defmt logger transport:

* `LogBuffer` — the fixed-capacity byte buffer with an Active/Flushing tag.
  Its Rust source file (`buffer.rs`) is not part of the provided sources, so
  it is modelled from the specification (§4.1 of the spec).
* `Controller` — `src/controller.rs`: `new`, `enable`, `disable`, `swap`,
  `write`, `get_flushing`, `reset_buffer`, `flush`.
* `UsbEncoder` — `src/lib.rs`: the `taken` reentrancy flag with
  `acquire`/`release`; a panic is modelled as `Option.none`.
* `handleSendResult` — `src/task.rs`: the error-handling arm of the drain
  task's packet-send loop.

Bytes are modelled as `Nat`; a buffer's `data` field models the valid prefix
`data[0..cursor]` of the Rust fixed array, so `cursor` is `data.length`.
The buffer capacity `C` (a compile-time constant in the Rust source whose
value is not fixed by the provided files) is an explicit parameter of the
operations that consult it.
-/

/-- Modelled from the spec: state tag of a `LogBuffer`
(spec §3: `state`: enum { Active, Flushing }). -/
inductive BufState where
  | Active
  | Flushing
deriving DecidableEq, Repr

/-- Modelled from the spec: a fixed-capacity byte buffer (`buffer.rs` is
missing from the provided sources).  `data` models the valid prefix
`data[0..cursor]` of the fixed-size array; the cursor is its length. -/
structure LogBuffer where
  data : List Nat
  state : BufState
deriving DecidableEq, Repr

namespace LogBuffer

/-- Modelled from the spec: `cursor`, the count of valid bytes. -/
def cursor (b : LogBuffer) : Nat := b.data.length

/-- Modelled from the spec: a fresh buffer is empty and Active. -/
def new : LogBuffer := { data := [], state := .Active }

/-- Modelled from the spec: `accepts(n) -> bool`: true iff
`cursor + n <= capacity`.  Pure predicate, no side effect. -/
def accepts (C : Nat) (b : LogBuffer) (n : Nat) : Bool :=
  decide (b.cursor + n ≤ C)

/-- Modelled from the spec: `write(bytes)` appends `bytes` at `cursor` and
advances `cursor`. -/
def write (b : LogBuffer) (bytes : List Nat) : LogBuffer :=
  { b with data := b.data ++ bytes }

/-- Modelled from the spec: `flush()` sets `state = Flushing`. -/
def flush (b : LogBuffer) : LogBuffer :=
  { b with state := .Flushing }

/-- Modelled from the spec: `reset()` sets `cursor = 0`, `state = Active`. -/
def reset (_b : LogBuffer) : LogBuffer :=
  { data := [], state := .Active }

/-- Modelled from the spec: `is_flushing() -> bool`. -/
def is_flushing (b : LogBuffer) : Bool :=
  decide (b.state = .Flushing)

end LogBuffer

/-- The buffer controller of the logger (`src/controller.rs`).
`buf0`/`buf1` are the two slots of the `buffers` array. -/
structure Controller where
  current_idx : Nat
  enabled : Bool
  buf0 : LogBuffer
  buf1 : LogBuffer
deriving DecidableEq, Repr

namespace Controller

/-- Array access `self.buffers[i]` (the Rust array has exactly two slots; every reachable
index is 0 or 1). -/
def buf (c : Controller) (i : Nat) : LogBuffer :=
  if i = 0 then c.buf0 else c.buf1

/-- Store a buffer back into slot `i`. -/
def setBuf (c : Controller) (i : Nat) (b : LogBuffer) : Controller :=
  if i = 0 then { c with buf0 := b } else { c with buf1 := b }

/-- Rust `Controller::new`: index 0 is current, the controller starts enabled,
both buffers fresh. -/
def new : Controller :=
  { current_idx := 0
    enabled := true
    buf0 := LogBuffer.new
    buf1 := LogBuffer.new }

/-- Rust `Controller::enable`: stores `true` into `enabled`. -/
def enable (c : Controller) : Controller :=
  { c with enabled := true }

/-- Rust `Controller::disable`: stores `false` into `enabled`, then resets both
buffers inside a critical section. -/
def disable (c : Controller) : Controller :=
  { c with enabled := false, buf0 := c.buf0.reset, buf1 := c.buf1.reset }

/-- Rust `Controller::swap`: no-op when disabled; otherwise marks the buffer at
`current_idx` as flushing and xors `current_idx` with 1. -/
def swap (c : Controller) : Controller :=
  if !c.enabled then c
  else
    let current_idx := c.current_idx
    let c' := c.setBuf current_idx ((c.buf current_idx).flush)
    { c' with current_idx := current_idx ^^^ 1 }

/-- Rust `Controller::write`: no-op when disabled.  Otherwise, with
`other_idx = current_idx ^ 1`, write to the current buffer if it accepts the
bytes; else swap and, if the (pre-captured) other buffer accepts them, write
there; else the bytes are dropped. -/
def write (C : Nat) (c : Controller) (bytes : List Nat) : Controller :=
  if !c.enabled then c
  else
    let current_idx := c.current_idx
    let other_idx := current_idx ^^^ 1
    let current := c.buf current_idx
    let other := c.buf other_idx
    if current.accepts C bytes.length then
      c.setBuf current_idx (current.write bytes)
    else
      let c' := c.swap
      if other.accepts C bytes.length then
        c'.setBuf other_idx (other.write bytes)
      else
        c'

/-- Rust `Controller::get_flushing`: scan slot 0 then slot 1 for a flushing
buffer. -/
def get_flushing (c : Controller) : Option (Nat × LogBuffer) :=
  if c.buf0.is_flushing then some (0, c.buf0)
  else if c.buf1.is_flushing then some (1, c.buf1)
  else none

/-- Rust `Controller::reset_buffer`: reset the buffer at `buf_idx` inside a
critical section. -/
def reset_buffer (c : Controller) (buf_idx : Nat) : Controller :=
  c.setBuf buf_idx ((c.buf buf_idx).reset)

/-- Rust `Controller::flush`: if a buffer is flushing, hand its valid prefix
`data[..cursor]` to the flusher, always reset that buffer, and propagate the
flusher's result.  The third component records the arguments of every
invocation of the flusher (so "the sender was not invoked" is observable). -/
def flush {E : Type} (c : Controller) (flusher : List Nat → Except E Unit) :
    Controller × Except E Unit × List (List Nat) :=
  match c.get_flushing with
  | some (buf_idx, buffer) =>
      let bytes := buffer.data
      let res := flusher bytes
      let c' := c.reset_buffer buf_idx
      (c', res, [bytes])
  | none => (c, Except.ok (), [])

/-- Fold `Controller.write` over a sequence of write calls. -/
def writeList (C : Nat) (c : Controller) (ws : List (List Nat)) : Controller :=
  ws.foldl (fun s w => s.write C w) c

end Controller

/-- Total byte length of a sequence of write calls. -/
def totalLen (ws : List (List Nat)) : Nat :=
  (ws.map List.length).sum

/-- The defmt logger singleton of `src/lib.rs`.  Only the `taken` reentrancy
flag is relevant to the verified claims; the saved restore state and the
external `defmt::Encoder` are unmodelled collaborators. -/
structure UsbEncoder where
  taken : Bool
deriving DecidableEq, Repr

namespace UsbEncoder

/-- Rust `UsbEncoder::new`: not taken. -/
def new : UsbEncoder := { taken := false }

/-- Rust `UsbEncoder::acquire`: panics (modelled as `none`) iff `taken` is already
set; otherwise sets `taken`. -/
def acquire (e : UsbEncoder) : Option UsbEncoder :=
  if e.taken then none
  else some { e with taken := true }

/-- Rust `UsbEncoder::release`: panics (modelled as `none`) iff `taken` is not
set; otherwise clears `taken`. -/
def release (e : UsbEncoder) : Option UsbEncoder :=
  if !e.taken then none
  else some { e with taken := false }

end UsbEncoder

/-- Rust `embassy_usb::driver::EndpointError`, as matched in `src/task.rs`. -/
inductive EndpointError where
  | bufferOverflow
  | disabled
deriving DecidableEq, Repr

/-- What the drain task's send loop does next after handling one
`write_packet` result. -/
inductive LoopAction where
  /-- Jump back to the main loop, i.e. to `wait_connection`. -/
  | continueMain
  /-- fall through: keep sending / proceed with the data loop. -/
  | proceed
deriving DecidableEq, Repr

/-- The `match sender.write_packet(chunk).await` arms of the `logger` task in
`src/task.rs`: on `EndpointError::Disabled` the controller is disabled and
control returns to the connection-wait loop; every other outcome falls
through to `()` and the loop proceeds. -/
def handleSendResult (c : Controller) (r : Except EndpointError Unit) :
    Controller × LoopAction :=
  match r with
  | .error .disabled => (c.disable, .continueMain)
  | .error _ => (c, .proceed)
  | .ok _ => (c, .proceed)

/-! ## Helper lemmas about the controller operations -/

theorem accepts_eq_true_iff (C : Nat) (b : LogBuffer) (n : Nat) :
    b.accepts C n = true ↔ b.cursor + n ≤ C := by
  simp [LogBuffer.accepts]

theorem accepts_eq_false_iff (C : Nat) (b : LogBuffer) (n : Nat) :
    b.accepts C n = false ↔ C < b.cursor + n := by
  simp [LogBuffer.accepts]

theorem buf_setBuf (c : Controller) (j i : Nat) (b : LogBuffer) :
    (c.setBuf j b).buf i = if (i = 0) = (j = 0) then b else c.buf i := by
  by_cases hi : i = 0 <;> by_cases hj : j = 0 <;>
    simp [Controller.buf, Controller.setBuf, hi, hj]

theorem buf_eq_of_iff (c : Controller) {i j : Nat} (h : (i = 0) = (j = 0)) :
    c.buf i = c.buf j := by
  by_cases hi : i = 0 <;> by_cases hj : j = 0 <;>
    simp_all [Controller.buf]

theorem setBuf_enabled (c : Controller) (j : Nat) (b : LogBuffer) :
    (c.setBuf j b).enabled = c.enabled := by
  by_cases hj : j = 0 <;> simp [Controller.setBuf, hj]

theorem setBuf_idx (c : Controller) (j : Nat) (b : LogBuffer) :
    (c.setBuf j b).current_idx = c.current_idx := by
  by_cases hj : j = 0 <;> simp [Controller.setBuf, hj]

theorem swap_enabled (c : Controller) : c.swap.enabled = c.enabled := by
  unfold Controller.swap
  by_cases h : c.enabled <;> simp [h, setBuf_enabled]

theorem write_enabled (C : Nat) (c : Controller) (w : List Nat) :
    (c.write C w).enabled = c.enabled := by
  unfold Controller.write
  by_cases h : c.enabled
  · simp only [h, Bool.not_true, Bool.false_eq_true, if_false]
    split
    · simp [setBuf_enabled, h]
    · split <;> simp [setBuf_enabled, swap_enabled, h]
  · simp [h]

theorem swap_idx_of_enabled (c : Controller) (h : c.enabled = true) :
    c.swap.current_idx = c.current_idx ^^^ 1 := by
  simp [Controller.swap, h, setBuf_idx]

theorem write_idx_lt (C : Nat) (c : Controller) (w : List Nat)
    (h : c.current_idx < 2) : (c.write C w).current_idx < 2 := by
  have hs : c.swap.current_idx < 2 := by
    by_cases he : c.enabled = true
    · rw [swap_idx_of_enabled c he]
      interval_cases h' : c.current_idx <;> decide
    · simp only [Bool.not_eq_true] at he
      simpa [Controller.swap, he] using h
  unfold Controller.write
  by_cases he : c.enabled
  · simp only [he, Bool.not_true, Bool.false_eq_true, if_false]
    split
    · rwa [setBuf_idx]
    · split
      · rwa [setBuf_idx]
      · exact hs
  · simpa [he] using h

theorem swap_buf_data (c : Controller) (i : Nat) :
    (c.swap.buf i).data = (c.buf i).data := by
  unfold Controller.swap
  by_cases h : c.enabled
  · simp only [h, Bool.not_true, Bool.false_eq_true, if_false]
    show ((c.setBuf c.current_idx ((c.buf c.current_idx).flush)).buf i).data = _
    rw [buf_setBuf]
    split
    · next heq => rw [LogBuffer.flush, buf_eq_of_iff c heq]
    · rfl
  · simp [h]

theorem write_eq_of_accepts (C : Nat) (c : Controller) (w : List Nat)
    (hen : c.enabled = true)
    (hacc : (c.buf c.current_idx).accepts C w.length = true) :
    c.write C w = c.setBuf c.current_idx ((c.buf c.current_idx).write w) := by
  simp [Controller.write, hen, hacc]

theorem write_eq_of_other_accepts (C : Nat) (c : Controller) (w : List Nat)
    (hen : c.enabled = true)
    (hacc : (c.buf c.current_idx).accepts C w.length = false)
    (hoth : (c.buf (c.current_idx ^^^ 1)).accepts C w.length = true) :
    c.write C w =
      c.swap.setBuf (c.current_idx ^^^ 1) ((c.buf (c.current_idx ^^^ 1)).write w) := by
  simp [Controller.write, hen, hacc, hoth]

theorem write_eq_of_neither_accepts (C : Nat) (c : Controller) (w : List Nat)
    (hen : c.enabled = true)
    (hacc : (c.buf c.current_idx).accepts C w.length = false)
    (hoth : (c.buf (c.current_idx ^^^ 1)).accepts C w.length = false) :
    c.write C w = c.swap := by
  simp [Controller.write, hen, hacc, hoth]

theorem write_data_mono (C : Nat) (c : Controller) (w : List Nat) (i : Nat) :
    ∃ t, ((c.write C w).buf i).data = (c.buf i).data ++ t := by
  by_cases hen : c.enabled = true
  · by_cases hacc : (c.buf c.current_idx).accepts C w.length = true
    · rw [write_eq_of_accepts C c w hen hacc, buf_setBuf]
      split
      · next heq =>
        exact ⟨w, by rw [LogBuffer.write, buf_eq_of_iff c heq]⟩
      · exact ⟨[], by simp⟩
    · rw [Bool.not_eq_true] at hacc
      by_cases hoth : (c.buf (c.current_idx ^^^ 1)).accepts C w.length = true
      · rw [write_eq_of_other_accepts C c w hen hacc hoth, buf_setBuf]
        split
        · next heq =>
          exact ⟨w, by rw [LogBuffer.write, buf_eq_of_iff c heq]⟩
        · exact ⟨[], by simp [swap_buf_data]⟩
      · rw [Bool.not_eq_true] at hoth
        rw [write_eq_of_neither_accepts C c w hen hacc hoth]
        exact ⟨[], by simp [swap_buf_data]⟩
  · rw [Bool.not_eq_true] at hen
    exact ⟨[], by simp [Controller.write, hen]⟩

theorem writeList_data_mono (C : Nat) (ws : List (List Nat)) :
    ∀ (c : Controller) (i : Nat),
      ∃ t, ((Controller.writeList C c ws).buf i).data = (c.buf i).data ++ t := by
  induction ws with
  | nil => exact fun c i => ⟨[], by simp [Controller.writeList]⟩
  | cons w rest ih =>
    intro c i
    obtain ⟨t₁, h₁⟩ := write_data_mono C c w i
    obtain ⟨t₂, h₂⟩ := ih (c.write C w) i
    exact ⟨t₁ ++ t₂, by
      simp only [Controller.writeList, List.foldl_cons] at h₂ ⊢
      rw [h₂, h₁, List.append_assoc]⟩

theorem write_step_no_drop (C : Nat) (c : Controller) (w : List Nat)
    (hen : c.enabled = true) (hidx : c.current_idx < 2)
    (hsum : c.buf0.cursor + c.buf1.cursor + 2 * w.length ≤ 2 * C) :
    (c.write C w).buf0.cursor + (c.write C w).buf1.cursor
      = c.buf0.cursor + c.buf1.cursor + w.length ∧
    ∃ i, i < 2 ∧ ((c.write C w).buf i).data = (c.buf i).data ++ w := by
  obtain ⟨idx, en, b0, b1⟩ := c
  dsimp only at hen hidx hsum ⊢
  subst hen
  interval_cases idx
  · by_cases hacc : b0.cursor + w.length ≤ C
    · have h1 : b0.accepts C w.length = true := by
        simp [LogBuffer.accepts, hacc]
      refine ⟨?_, 0, by omega, ?_⟩ <;>
        simp [Controller.write, Controller.buf, Controller.setBuf, h1,
          LogBuffer.write, LogBuffer.cursor] <;> omega
    · have h1 : b0.accepts C w.length = false := by
        simp [LogBuffer.accepts]; omega
      have h2 : b1.accepts C w.length = true := by
        simp [LogBuffer.accepts, LogBuffer.cursor] at *; omega
      refine ⟨?_, 1, by omega, ?_⟩ <;>
        simp [Controller.write, Controller.swap, Controller.buf, Controller.setBuf,
          h1, h2, LogBuffer.write, LogBuffer.flush, LogBuffer.cursor] <;> omega
  · by_cases hacc : b1.cursor + w.length ≤ C
    · have h1 : b1.accepts C w.length = true := by
        simp [LogBuffer.accepts, hacc]
      refine ⟨?_, 1, by omega, ?_⟩ <;>
        simp [Controller.write, Controller.buf, Controller.setBuf, h1,
          LogBuffer.write, LogBuffer.cursor] <;> omega
    · have h1 : b1.accepts C w.length = false := by
        simp [LogBuffer.accepts]; omega
      have h2 : b0.accepts C w.length = true := by
        simp [LogBuffer.accepts, LogBuffer.cursor] at *; omega
      refine ⟨?_, 0, by omega, ?_⟩ <;>
        simp [Controller.write, Controller.swap, Controller.buf, Controller.setBuf,
          h1, h2, LogBuffer.write, LogBuffer.flush, LogBuffer.cursor] <;> omega

theorem totalLen_nil : totalLen [] = 0 := rfl

theorem totalLen_cons (w : List Nat) (ws : List (List Nat)) :
    totalLen (w :: ws) = w.length + totalLen ws := by
  simp [totalLen]

theorem writeList_cons (C : Nat) (c : Controller) (w : List Nat)
    (ws : List (List Nat)) :
    Controller.writeList C c (w :: ws) = Controller.writeList C (c.write C w) ws := by
  simp [Controller.writeList]

theorem writeList_no_loss_aux (C L : Nat) :
    ∀ (ws : List (List Nat)) (c : Controller),
      c.enabled = true → c.current_idx < 2 →
      (∀ w ∈ ws, w.length ≤ L) →
      c.buf0.cursor + c.buf1.cursor + totalLen ws + L ≤ 2 * C →
      (Controller.writeList C c ws).buf0.cursor
          + (Controller.writeList C c ws).buf1.cursor
        = c.buf0.cursor + c.buf1.cursor + totalLen ws ∧
      ∀ w ∈ ws, ∃ i p t, i < 2 ∧
        p ++ w ++ t = ((Controller.writeList C c ws).buf i).data := by
  intro ws
  induction ws with
  | nil =>
    intro c _ _ _ _
    exact ⟨by simp [Controller.writeList, totalLen_nil], by simp⟩
  | cons w rest ih =>
    intro c hen hidx hlen hsum
    have hw : w.length ≤ L := hlen w (by simp)
    have hstep := write_step_no_drop C c w hen hidx (by
      rw [totalLen_cons] at hsum; omega)
    have hen' : (c.write C w).enabled = true := by rw [write_enabled]; exact hen
    have hidx' : (c.write C w).current_idx < 2 := write_idx_lt C c w hidx
    have hlen' : ∀ v ∈ rest, v.length ≤ L := fun v hv => hlen v (by simp [hv])
    have hsum' : (c.write C w).buf0.cursor + (c.write C w).buf1.cursor
        + totalLen rest + L ≤ 2 * C := by
      rw [hstep.1]; rw [totalLen_cons] at hsum; omega
    obtain ⟨ihsum, ihvis⟩ := ih (c.write C w) hen' hidx' hlen' hsum'
    rw [writeList_cons]
    constructor
    · rw [ihsum, hstep.1, totalLen_cons]; omega
    · intro v hv
      rcases List.mem_cons.mp hv with hv | hv
      · obtain ⟨i, hi2, hdata⟩ := hstep.2
        obtain ⟨t₂, ht₂⟩ := writeList_data_mono C rest (c.write C w) i
        exact ⟨i, (c.buf i).data, t₂, hi2, by
          rw [hv, ht₂, hdata, List.append_assoc]⟩
      · exact ihvis v hv

/-! ## Claim theorems -/

/-- Concrete run refuting claim C1: capacity 64, writes of 60, 60 and 8
bytes (each at most 64, running total 128 = 2 * 64). -/
def c1Writes : List (List Nat) :=
  [List.replicate 60 1, List.replicate 60 2, List.replicate 8 3]

/-- Final controller state of the C1 counterexample run. -/
def c1Final : Controller :=
  Controller.writeList 64 Controller.new c1Writes

/-- C1 (counterexample): starting from a fresh enabled controller with
capacity 64, the writes of 60, 60 and 8 bytes each have length at most the
capacity and running total 128 ≤ 2 * 64, yet the byte value 3 — written by
the third call — ends up in neither buffer's valid data: the last 8 bytes
are dropped, so the claim as stated fails. -/
theorem write_seq_2C_loses_bytes_cex :
    (∀ w ∈ c1Writes, w.length ≤ 64) ∧
    totalLen c1Writes ≤ 2 * 64 ∧
    (3 : Nat) ∈ List.replicate 8 (3 : Nat) ∧
    (3 : Nat) ∉ c1Final.buf0.data ∧
    (3 : Nat) ∉ c1Final.buf1.data ∧
    c1Final.buf0.cursor + c1Final.buf1.cursor = 120 := by
  decide

/-- C1 (amended): starting from a fresh enabled controller, for every
sequence of write calls in which each call's byte length is at most `L`,
`L` is at most the capacity `C`, and the running total of bytes plus `L`
does not exceed `2 * C` (no flush or reset during the sequence), no bytes
are lost: the buffers' cursors sum to the total written, and every written
call's bytes are visible contiguously in some buffer's `data[0..cursor]`. -/
theorem write_seq_no_loss (C L : Nat) (ws : List (List Nat))
    (hL : ∀ w ∈ ws, w.length ≤ L) (hLC : L ≤ C)
    (htot : totalLen ws + L ≤ 2 * C) :
    (Controller.writeList C Controller.new ws).buf0.cursor
        + (Controller.writeList C Controller.new ws).buf1.cursor
      = totalLen ws ∧
    ∀ w ∈ ws, ∃ i p t, i < 2 ∧
      p ++ w ++ t = ((Controller.writeList C Controller.new ws).buf i).data := by
  have h := writeList_no_loss_aux C L ws Controller.new rfl (by decide) hL
    (by simpa [Controller.new, LogBuffer.new, LogBuffer.cursor] using htot)
  simpa [Controller.new, LogBuffer.new, LogBuffer.cursor] using h

/-- Witness for C1 (amended) at capacity 64 with writes of 40 and 30 bytes
(the spec §8 scenario), `L = 40`. -/
theorem write_seq_no_loss_witness :
    (Controller.writeList 64 Controller.new
        [List.replicate 40 1, List.replicate 30 2]).buf0.cursor
      + (Controller.writeList 64 Controller.new
        [List.replicate 40 1, List.replicate 30 2]).buf1.cursor
      = totalLen [List.replicate 40 1, List.replicate 30 2] ∧
    ∀ w ∈ [List.replicate 40 (1 : Nat), List.replicate 30 2], ∃ i p t, i < 2 ∧
      p ++ w ++ t = ((Controller.writeList 64 Controller.new
        [List.replicate 40 1, List.replicate 30 2]).buf i).data :=
  write_seq_no_loss 64 40 [List.replicate 40 1, List.replicate 30 2]
    (by decide) (by decide) (by decide)

/-- State after writing 10 bytes to a fresh controller with capacity 64
(claim C2's failing run, step 1). -/
def c2AfterFirst : Controller :=
  Controller.new.write 64 (List.replicate 10 1)

/-- State after additionally writing 64 bytes: buffer 0 (10 bytes) is now
Flushing, buffer 1 holds 64 bytes and is current (claim C2's failing run,
step 2). -/
def c2AfterSecond : Controller :=
  c2AfterFirst.write 64 (List.replicate 64 2)

/-- C2: the claim that `Controller.write` never appends to a Flushing buffer
fails on the code.  With capacity 64, after writes of 10 and 64 bytes,
buffer 0 is Flushing with 10 bytes; a further 1-byte write swaps (marking
buffer 1 Flushing too) and then appends the byte to buffer 0 — whose state
is Flushing before and after the append — because `accepts` consults only
the cursor, never the state tag. -/
theorem write_appends_to_flushing_buffer :
    c2AfterSecond.buf0.state = .Flushing ∧
    (c2AfterSecond.write 64 [3]).buf0.data = c2AfterSecond.buf0.data ++ [3] ∧
    (c2AfterSecond.write 64 [3]).buf0.state = .Flushing := by
  decide

/-- C3: behaviour of `Controller.flush`.  If neither buffer is Flushing it
returns success without invoking the sender.  Otherwise it selects exactly
one Flushing buffer (slot 0 checked before slot 1), passes that buffer's
valid data to the sender exactly once, resets that buffer to Active with
cursor 0 whatever the sender returned, leaves the other buffer untouched,
and propagates the sender's result to the caller. -/
theorem flush_spec {E : Type} (c : Controller) (f : List Nat → Except E Unit) :
    (c.buf0.is_flushing = false → c.buf1.is_flushing = false →
      c.flush f = (c, Except.ok (), [])) ∧
    (c.buf0.is_flushing = true →
      c.flush f = (c.reset_buffer 0, f c.buf0.data, [c.buf0.data]) ∧
      (c.reset_buffer 0).buf0.state = .Active ∧
      (c.reset_buffer 0).buf0.cursor = 0 ∧
      (c.reset_buffer 0).buf1 = c.buf1) ∧
    (c.buf0.is_flushing = false → c.buf1.is_flushing = true →
      c.flush f = (c.reset_buffer 1, f c.buf1.data, [c.buf1.data]) ∧
      (c.reset_buffer 1).buf1.state = .Active ∧
      (c.reset_buffer 1).buf1.cursor = 0 ∧
      (c.reset_buffer 1).buf0 = c.buf0) := by
  refine ⟨fun h0 h1 => ?_, fun h0 => ⟨?_, ?_, ?_, ?_⟩, fun h0 h1 => ⟨?_, ?_, ?_, ?_⟩⟩ <;>
    simp_all [Controller.flush, Controller.get_flushing, Controller.reset_buffer,
      Controller.setBuf, Controller.buf, LogBuffer.reset, LogBuffer.cursor]

/-- Witness for C3 at a concrete state: fresh controller after one `swap`
(buffer 0 Flushing and empty) with a sender that always fails. -/
theorem flush_spec_witness :
    Controller.new.swap.flush (fun _ => Except.error (0 : Nat)) =
      (Controller.new.swap.reset_buffer 0, Except.error 0, [[]]) ∧
    Controller.new.flush (fun _ => Except.error (0 : Nat)) =
      (Controller.new, Except.ok (), []) := by
  constructor
  · have h := (flush_spec Controller.new.swap
      (fun _ => Except.error (0 : Nat))).2.1 (by decide)
    have hdata : Controller.new.swap.buf0.data = ([] : List Nat) := by decide
    simpa [hdata] using h.1
  · exact (flush_spec Controller.new
      (fun _ => Except.error (0 : Nat))).1 (by decide) (by decide)

/-- C4: case analysis of an enabled `Controller.write` call.  If the current
buffer accepts the byte count, the bytes are appended to it; otherwise a
swap is performed and the check is retried against the now-active buffer
(which the swap leaves untouched); if that buffer cannot accept them either,
the call degenerates to the swap alone and both buffers' data are unchanged
— the bytes are dropped entirely, with no partial write (and, being a total
Lean function, the call neither blocks nor panics). -/
theorem write_case_analysis (C : Nat) (c : Controller) (bytes : List Nat)
    (hen : c.enabled = true) :
    ((c.buf c.current_idx).accepts C bytes.length = true →
      c.write C bytes = c.setBuf c.current_idx ((c.buf c.current_idx).write bytes)) ∧
    ((c.buf c.current_idx).accepts C bytes.length = false →
      (c.buf (c.current_idx ^^^ 1)).accepts C bytes.length = true →
      c.write C bytes =
        c.swap.setBuf (c.current_idx ^^^ 1) ((c.buf (c.current_idx ^^^ 1)).write bytes) ∧
      (c.swap.buf (c.current_idx ^^^ 1)).data = (c.buf (c.current_idx ^^^ 1)).data) ∧
    ((c.buf c.current_idx).accepts C bytes.length = false →
      (c.buf (c.current_idx ^^^ 1)).accepts C bytes.length = false →
      c.write C bytes = c.swap ∧
      (c.write C bytes).buf0.data = c.buf0.data ∧
      (c.write C bytes).buf1.data = c.buf1.data) := by
  refine ⟨fun hacc => write_eq_of_accepts C c bytes hen hacc,
    fun hacc hoth => ⟨write_eq_of_other_accepts C c bytes hen hacc hoth,
      swap_buf_data c (c.current_idx ^^^ 1)⟩,
    fun hacc hoth => ⟨write_eq_of_neither_accepts C c bytes hen hacc hoth, ?_, ?_⟩⟩ <;>
    rw [write_eq_of_neither_accepts C c bytes hen hacc hoth]
  · exact swap_buf_data c 0
  · exact swap_buf_data c 1

/-- Witness for C4: a fresh controller with capacity 4 accepts a 2-byte
write into buffer 0. -/
theorem write_case_analysis_witness :
    Controller.new.write 4 [1, 2] =
      Controller.new.setBuf Controller.new.current_idx
        ((Controller.new.buf Controller.new.current_idx).write [1, 2]) :=
  (write_case_analysis 4 Controller.new [1, 2] rfl).1 (by decide)

/-- C5: after `swap` on an enabled controller (the buffer index of any
constructible controller is 0 or 1), the buffer that was current is
Flushing, the index becomes its old value xor 1 — hence differs — and the
other buffer is entirely unchanged. -/
theorem swap_spec (c : Controller) (hen : c.enabled = true)
    (hidx : c.current_idx < 2) :
    (c.swap.buf c.current_idx).state = .Flushing ∧
    c.swap.current_idx = c.current_idx ^^^ 1 ∧
    c.swap.current_idx ≠ c.current_idx ∧
    c.swap.buf (c.current_idx ^^^ 1) = c.buf (c.current_idx ^^^ 1) := by
  obtain ⟨idx, en, b0, b1⟩ := c
  dsimp only at hen hidx ⊢
  subst hen
  interval_cases idx <;>
    simp [Controller.swap, Controller.buf, Controller.setBuf, LogBuffer.flush]

/-- Witness for C5 on a fresh controller. -/
theorem swap_spec_witness :
    (Controller.new.swap.buf Controller.new.current_idx).state = .Flushing ∧
    Controller.new.swap.current_idx = Controller.new.current_idx ^^^ 1 ∧
    Controller.new.swap.current_idx ≠ Controller.new.current_idx ∧
    Controller.new.swap.buf (Controller.new.current_idx ^^^ 1) =
      Controller.new.buf (Controller.new.current_idx ^^^ 1) :=
  swap_spec Controller.new rfl (by decide)

/-- C6: `disable` clears the enabled gate and leaves both buffers Active
with cursor 0, whatever state the controller was in. -/
theorem disable_resets_both (c : Controller) :
    c.disable.enabled = false ∧
    c.disable.buf0.state = .Active ∧ c.disable.buf0.cursor = 0 ∧
    c.disable.buf1.state = .Active ∧ c.disable.buf1.cursor = 0 := by
  simp [Controller.disable, LogBuffer.reset, LogBuffer.cursor]

/-- C7: while the controller is disabled, `write` (with any byte slice and
any capacity) and `swap` change nothing at all. -/
theorem disabled_write_swap_noop (C : Nat) (c : Controller) (bytes : List Nat)
    (h : c.enabled = false) :
    c.write C bytes = c ∧ c.swap = c := by
  constructor <;> simp [Controller.write, Controller.swap, h]

/-- Witness for C7 on a freshly disabled controller. -/
theorem disabled_write_swap_noop_witness :
    Controller.new.disable.write 64 [1, 2, 3] = Controller.new.disable ∧
    Controller.new.disable.swap = Controller.new.disable :=
  disabled_write_swap_noop 64 Controller.new.disable [1, 2, 3] rfl

/-- C8: `acquire` panics (modelled as `none`) exactly when `taken` is
already true — a reentrant acquire never succeeds — and `release` panics
exactly when `taken` is false (release without a matching acquire). -/
theorem acquire_release_panic_iff (e : UsbEncoder) :
    (e.acquire = none ↔ e.taken = true) ∧
    (e.release = none ↔ e.taken = false) := by
  obtain ⟨t⟩ := e
  cases t <;> simp [UsbEncoder.acquire, UsbEncoder.release]

/-- C9 (counterexample): a transport error other than the hard disconnect —
here `BufferOverflow` on a fresh controller — is handled identically to a
successful send: the controller state and the loop action carry no trace of
the error, so it is neither propagated nor logged, contrary to the claim. -/
theorem other_error_ignored_cex :
    handleSendResult Controller.new (Except.error EndpointError.bufferOverflow) =
      handleSendResult Controller.new (Except.ok ()) ∧
    handleSendResult Controller.new (Except.error EndpointError.bufferOverflow) =
      (Controller.new, LoopAction.proceed) := by
  decide

/-- C9 (amended): in the drain task's send loop, the hard-disconnect error
(`EndpointError::Disabled`) makes the task call `Controller.disable` and
jump back to waiting for a connection; every other transport error is
silently ignored — handled exactly like a successful send, neither
propagated nor logged — and is not fatal: the task simply proceeds. -/
theorem handle_send_result_spec (c : Controller) :
    handleSendResult c (Except.error EndpointError.disabled) =
      (c.disable, LoopAction.continueMain) ∧
    (c.disable).enabled = false ∧
    (∀ e, e ≠ EndpointError.disabled →
      handleSendResult c (Except.error e) = (c, LoopAction.proceed)) ∧
    handleSendResult c (Except.ok ()) = (c, LoopAction.proceed) := by
  refine ⟨rfl, ?_, fun e he => ?_, rfl⟩
  · simp [Controller.disable]
  · cases e
    · rfl
    · exact absurd rfl he

/-- Witness for C9 (amended) on a fresh controller with the overflow
error. -/
theorem handle_send_result_spec_witness :
    handleSendResult Controller.new (Except.error EndpointError.disabled) =
      (Controller.new.disable, LoopAction.continueMain) ∧
    handleSendResult Controller.new (Except.error EndpointError.bufferOverflow) =
      (Controller.new, LoopAction.proceed) :=
  ⟨(handle_send_result_spec Controller.new).1,
    (handle_send_result_spec Controller.new).2.2.1 EndpointError.bufferOverflow
      (by decide)⟩

/-- C10: a freshly constructed controller is enabled with `current_idx = 0`,
so a write issued before the drain task ever connects (of any length that
fits the capacity) is accepted into buffer 0 rather than discarded. -/
theorem new_starts_enabled (C : Nat) (bytes : List Nat)
    (h : bytes.length ≤ C) :
    Controller.new.enabled = true ∧
    Controller.new.current_idx = 0 ∧
    (Controller.new.write C bytes).buf0.data = bytes ∧
    (Controller.new.write C bytes).buf0.state = .Active := by
  refine ⟨rfl, rfl, ?_, ?_⟩ <;>
    simp [Controller.write, Controller.new, Controller.buf, Controller.setBuf,
      LogBuffer.accepts, LogBuffer.write, LogBuffer.new, LogBuffer.cursor, h]

/-- Witness for C10 with capacity 64 and a 3-byte write. -/
theorem new_starts_enabled_witness :
    Controller.new.enabled = true ∧
    Controller.new.current_idx = 0 ∧
    (Controller.new.write 64 [1, 2, 3]).buf0.data = [1, 2, 3] ∧
    (Controller.new.write 64 [1, 2, 3]).buf0.state = .Active :=
  new_starts_enabled 64 [1, 2, 3] (by decide)
